import Mathlib

/- Verification development for the Orca orchestration service.
   Each definition is a shallow embedding of the corresponding JavaScript
   function from the repository; theorems settle the specification claims. -/

namespace Orca

/-- Truthiness of an optional JS string: `undefined`/`null` and the empty
string are falsy, every other string is truthy. -/
def jsStrTruthy : Option String → Bool
  | none => false
  | some s => s != ""

/-- JS `x || null` on an optional string: a falsy value collapses to `null`. -/
def jsStrOrNull (o : Option String) : Option String :=
  if jsStrTruthy o then o else none

/-- JS substring containment, `haystack.includes(needle)`. -/
def strIncludes (haystack needle : String) : Bool :=
  decide (needle.data <:+: haystack.data)

/-- JS `toLowerCase()` (character-wise lowering over the code points). -/
def jsToLower (s : String) : String :=
  String.mk (s.data.map Char.toLower)

/-- JS `trim()`: strips whitespace from both ends. -/
def jsTrim (s : String) : String :=
  String.mk ((s.data.dropWhile Char.isWhitespace).reverse.dropWhile Char.isWhitespace).reverse

/-! Task queue (class `OrchestrationAgent`, orchestrationService). -/

/-- In-memory task object pushed onto `this.taskQueue` by
`loadTasksFromDatabase`. -/
structure Task where
  id : String
  message : String
  type : String
  urlId : Option String := none
  url : Option String := none
  urlType : Option String := none
  priority : Option String := none
  deploymentId : Option String := none
  githubRepo : Option String := none
  deriving DecidableEq, Repr

/-- Row of `monitored_urls` as returned by `getUrlsToCheck` (fields the
agent reads). -/
structure MonitoredUrlRow where
  id : String
  url : String
  url_type : String
  priority : String
  last_checked_at : Option Nat := none
  updated_at : Option Nat := none
  deriving DecidableEq, Repr

/-- Joined `github_repos` sub-row on a deployment (fields the agent reads). -/
structure GithubRepoRow where
  repo_owner : String
  repo_name : String
  deriving DecidableEq, Repr

/-- Row of `orchestration_deployments` as returned by `getDeploymentsToRun`,
with its joined sub-rows and the run/error counters of the schema. -/
structure DeploymentRow where
  id : String
  deployment_name : String
  monitored_urls : Option MonitoredUrlRow := none
  github_repos : Option GithubRepoRow := none
  run_count : Nat := 0
  error_count : Nat := 0
  last_error : Option String := none
  last_run_at : Option Nat := none
  next_run_at : Option Nat := none
  updated_at : Option Nat := none
  deriving DecidableEq, Repr

/-- JS string interpolation of a possibly-undefined field: `undefined`
renders as the literal string "undefined". -/
def jsShowOpt (o : Option String) : String :=
  match o with
  | some s => s
  | none => "undefined"

/-- Task built from a monitored URL row (`loadTasksFromDatabase`, first
forEach). -/
def urlTask (u : MonitoredUrlRow) : Task :=
  { id := "url-" ++ u.id
    message := "Analyze this " ++ u.url_type ++ " post for feature requests: " ++ u.url
    type := "url_analysis"
    urlId := some u.id
    url := some u.url
    urlType := some u.url_type
    priority := some u.priority }

/-- Task built from a deployment row (`loadTasksFromDatabase`, second
forEach); the `deployment.monitored_urls?.url` guard skips rows whose
joined URL is missing or falsy. -/
def deploymentTask (d : DeploymentRow) : Option Task :=
  match d.monitored_urls with
  | none => none
  | some mu =>
    if mu.url = "" then none
    else some
      { id := "deployment-" ++ d.id
        message := "Monitor deployment: " ++ d.deployment_name ++ " - Check " ++ mu.url
        type := "deployment_monitoring"
        deploymentId := some d.id
        url := some mu.url
        githubRepo := some (jsShowOpt (d.github_repos.map GithubRepoRow.repo_owner) ++ "/" ++
          jsShowOpt (d.github_repos.map GithubRepoRow.repo_name)) }

/-- The queue `loadTasksFromDatabase` rebuilds: URL-analysis tasks first,
then deployment-monitoring tasks, in database order. -/
def buildTaskQueue (urls : List MonitoredUrlRow) (deployments : List DeploymentRow) : List Task :=
  urls.map urlTask ++ deployments.filterMap deploymentTask

/-- Mutable state of the `OrchestrationAgent` singleton that the scheduler
claims are about. -/
structure OrchestrationAgentState where
  isRunning : Bool := false
  taskQueue : List Task := []
  currentTaskIndex : Nat := 0
  deriving DecidableEq, Repr

/-- `loadTasksFromDatabase`: replaces `this.taskQueue` with the freshly
built queue; `currentTaskIndex` and `isRunning` are not touched. -/
def loadTasksFromDatabase (st : OrchestrationAgentState) (urls : List MonitoredUrlRow)
    (deployments : List DeploymentRow) : OrchestrationAgentState :=
  { st with taskQueue := buildTaskQueue urls deployments }

/-- `getNextTask`: returns `null` on an empty queue, otherwise reads
`taskQueue[currentTaskIndex]` (which is `undefined`, i.e. `none`, when the
index is out of range) and advances the index modulo the queue length. -/
def getNextTask (st : OrchestrationAgentState) : Option Task × OrchestrationAgentState :=
  if st.taskQueue.length = 0 then (none, st)
  else (st.taskQueue.get? st.currentTaskIndex,
    { st with currentTaskIndex := (st.currentTaskIndex + 1) % st.taskQueue.length })

/-- Results and final state of `n` successive `getNextTask` calls. -/
def getNextTaskRun (st : OrchestrationAgentState) : Nat → List (Option Task) × OrchestrationAgentState
  | 0 => ([], st)
  | n + 1 =>
    let r := getNextTask st
    let rest := getNextTaskRun r.2 n
    (r.1 :: rest.1, rest.2)

/-- Concrete task used to instantiate scheduler theorems on small inputs. -/
def sampleTask (n : String) : Task :=
  { id := n, message := "task " ++ n, type := "custom" }

theorem getNextTask_nonempty (q : List Task) (run : Bool) (idx : Nat) (h : q.length ≠ 0) :
    getNextTask ⟨run, q, idx⟩ = (q.get? idx, ⟨run, q, (idx + 1) % q.length⟩) := by
  simp [getNextTask, h]

theorem getNextTaskRun_succ (st : OrchestrationAgentState) (n : Nat) :
    getNextTaskRun st (n + 1) =
      ((getNextTask st).1 :: (getNextTaskRun (getNextTask st).2 n).1,
        (getNextTaskRun (getNextTask st).2 n).2) := rfl

/-- So long as the calls stay inside the first pass over the queue, the run
returns the slice `[idx, idx+k)` in order and the index ends at
`(idx + k) % length`. -/
theorem getNextTaskRun_spec (q : List Task) (run : Bool) (k : Nat) :
    ∀ idx, idx < q.length → idx + k ≤ q.length →
    getNextTaskRun ⟨run, q, idx⟩ k =
      (((q.drop idx).take k).map some, ⟨run, q, (idx + k) % q.length⟩) := by
  induction k with
  | zero =>
    intro idx hidx _
    rw [Nat.add_zero, Nat.mod_eq_of_lt hidx]
    simp [getNextTaskRun]
  | succ k ih =>
    intro idx hidx hk
    have hlen : q.length ≠ 0 := by omega
    have hdrop : q.drop idx = q.get ⟨idx, hidx⟩ :: q.drop (idx + 1) :=
      List.drop_eq_getElem_cons hidx
    rw [getNextTaskRun_succ, getNextTask_nonempty q run idx hlen]
    rcases Nat.lt_or_ge (idx + 1) q.length with hlt | hge
    · have hmod : (idx + 1) % q.length = idx + 1 := Nat.mod_eq_of_lt hlt
      have hrec := ih (idx + 1) hlt (by omega)
      have harith : idx + 1 + k = idx + (k + 1) := by omega
      rw [harith] at hrec
      simp only [hmod, hrec, List.get?_eq_get hidx]
      rw [hdrop, List.take_succ_cons, List.map_cons]
    · have hidx1 : idx + 1 = q.length := by omega
      have hk0 : k = 0 := by omega
      subst hk0
      have hmod : (idx + 1) % q.length = 0 := by rw [hidx1, Nat.mod_self]
      have hmod2 : (idx + (0 + 1)) % q.length = 0 := by rw [Nat.zero_add, hidx1, Nat.mod_self]
      simp only [hmod, hmod2, List.get?_eq_get hidx, getNextTaskRun]
      rw [hdrop, List.take_succ_cons, List.take_zero, List.map_cons, List.map_nil]

/-- C1: on a fixed non-empty queue of length N with `currentTaskIndex = 0`
and no reload in between, N successive `getNextTask` calls return the queue
elements at positions 0..N-1 in order, each exactly once, and the (N+1)-th
call returns the element at position 0 again. -/
theorem c1_getNextTask_round_robin (q : List Task) (run : Bool) (hq : q ≠ []) :
    (getNextTaskRun ⟨run, q, 0⟩ q.length).1 = q.map some ∧
    (getNextTask (getNextTaskRun ⟨run, q, 0⟩ q.length).2).1 = some (q.head hq) := by
  have hpos : 0 < q.length := List.length_pos.mpr hq
  have hrun := getNextTaskRun_spec q run q.length 0 hpos (by omega)
  rw [Nat.zero_add, Nat.mod_self] at hrun
  constructor
  · rw [hrun]
    simp
  · rw [hrun]
    rw [getNextTask_nonempty q run 0 (by omega)]
    rw [List.get?_eq_get hpos]
    exact List.get_mk_zero hpos ▸ rfl

/-- Witness for C1 at the concrete queue [A, B, C]. -/
theorem c1_getNextTask_round_robin_witness :
    ([sampleTask "A", sampleTask "B", sampleTask "C"] : List Task) ≠ [] ∧
    (getNextTaskRun ⟨false, [sampleTask "A", sampleTask "B", sampleTask "C"], 0⟩ 3).1 =
      [some (sampleTask "A"), some (sampleTask "B"), some (sampleTask "C")] ∧
    (getNextTask (getNextTaskRun ⟨false, [sampleTask "A", sampleTask "B", sampleTask "C"], 0⟩ 3).2).1 =
      some (sampleTask "A") := by
  have h := c1_getNextTask_round_robin [sampleTask "A", sampleTask "B", sampleTask "C"] false
    (by simp)
  exact ⟨by simp, by simpa using h.1, by simpa using h.2⟩

/-- C7: with the database returning the same rows both times, loading the
task queue twice in a row yields the same queue, in content, order and
length, as loading it once. -/
theorem c7_loadTasks_idempotent (st : OrchestrationAgentState) (urls : List MonitoredUrlRow)
    (deployments : List DeploymentRow) :
    (loadTasksFromDatabase (loadTasksFromDatabase st urls deployments) urls deployments).taskQueue =
      (loadTasksFromDatabase st urls deployments).taskQueue ∧
    (loadTasksFromDatabase (loadTasksFromDatabase st urls deployments) urls deployments).taskQueue.length =
      (loadTasksFromDatabase st urls deployments).taskQueue.length :=
  ⟨rfl, rfl⟩

/-- C10: reloading the queue never resets `currentTaskIndex`, and when the
stale index is at or past the end of a non-empty queue, `getNextTask`
returns `undefined` for that one call, the index is then reduced modulo the
new length, and the following call returns a valid task. -/
theorem c10_stale_index_undefined (q : List Task) (run : Bool) (idx : Nat)
    (hq : q ≠ []) (hidx : q.length ≤ idx) :
    (∀ st urls deployments,
      (loadTasksFromDatabase st urls deployments).currentTaskIndex = st.currentTaskIndex) ∧
    (getNextTask ⟨run, q, idx⟩).1 = none ∧
    (getNextTask ⟨run, q, idx⟩).2.currentTaskIndex = (idx + 1) % q.length ∧
    ((getNextTask (getNextTask ⟨run, q, idx⟩).2).1).isSome = true := by
  have hpos : 0 < q.length := List.length_pos.mpr hq
  have hlen : q.length ≠ 0 := by omega
  refine ⟨fun _ _ _ => rfl, ?_, ?_, ?_⟩
  · rw [getNextTask_nonempty q run idx hlen]
    exact List.get?_eq_none.mpr hidx
  · rw [getNextTask_nonempty q run idx hlen]
  · rw [getNextTask_nonempty q run idx hlen, getNextTask_nonempty q run _ hlen]
    have hm : (idx + 1) % q.length < q.length := Nat.mod_lt _ hpos
    rw [List.get?_eq_get hm]
    rfl

/-! Feature-request status updates (orchestrationDatabaseService). -/

/-- JS truthiness of an optional number: `undefined`, `null` and 0 are
falsy. -/
def jsNatTruthy : Option Nat → Bool
  | none => false
  | some n => n != 0

/-- Metadata argument of `updateFeatureRequestStatus` (the fields the
function reads). -/
structure StatusMetadata where
  assignedTo : Option String := none
  pullRequestUrl : Option String := none
  pullRequestNumber : Option Nat := none
  error : Option String := none
  deriving DecidableEq, Repr

/-- Whether the metadata object has no keys (`Object.keys(metadata).length`
is 0); fields are conflated with their presence. -/
def StatusMetadata.isEmptyObj (m : StatusMetadata) : Bool :=
  m.assignedTo.isNone && m.pullRequestUrl.isNone && m.pullRequestNumber.isNone && m.error.isNone

/-- The `updateData` object built by `updateFeatureRequestStatus` before it
is written to the `feature_requests` row; `none` means the column is absent
from the update. Timestamps are epoch milliseconds. -/
structure FeatureUpdateData where
  status : String
  updated_at : Nat
  implementation_started_at : Option Nat := none
  assigned_to : Option String := none
  implementation_completed_at : Option Nat := none
  pull_request_url : Option String := none
  pull_request_number : Option Nat := none
  implementation_failed_at : Option Nat := none
  implementation_error : Option String := none
  implementation_metadata : Option StatusMetadata := none
  deriving DecidableEq, Repr

/-- `updateFeatureRequestStatus`, reduced to the update object it builds:
status and `updated_at` always; start/completion/failure stamps and their
companions only under the matching status. -/
def updateFeatureRequestStatusData (status : String) (metadata : StatusMetadata)
    (now : Nat) : FeatureUpdateData :=
  let d : FeatureUpdateData := { status := status, updated_at := now }
  let d := if status = "pending" then
      { d with implementation_started_at := some now,
               assigned_to := if jsStrTruthy metadata.assignedTo then metadata.assignedTo else none }
    else d
  let d := if status = "shipped" then
      { d with implementation_completed_at := some now,
               pull_request_url := if jsStrTruthy metadata.pullRequestUrl then metadata.pullRequestUrl else none,
               pull_request_number := if jsNatTruthy metadata.pullRequestNumber then metadata.pullRequestNumber else none }
    else d
  let d := if status = "failed" then
      { d with implementation_failed_at := some now,
               implementation_error := if jsStrTruthy metadata.error then metadata.error else none }
    else d
  if metadata.isEmptyObj then d else { d with implementation_metadata := some metadata }

/-- C2: status `pending` sets `implementation_started_at`, `shipped` sets
`implementation_completed_at`, `failed` sets `implementation_failed_at`,
and no other status value sets any of these timestamps. -/
theorem c2_status_timestamps (status : String) (metadata : StatusMetadata) (now : Nat) :
    (updateFeatureRequestStatusData status metadata now).implementation_started_at =
      (if status = "pending" then some now else none) ∧
    (updateFeatureRequestStatusData status metadata now).implementation_completed_at =
      (if status = "shipped" then some now else none) ∧
    (updateFeatureRequestStatusData status metadata now).implementation_failed_at =
      (if status = "failed" then some now else none) := by
  simp only [updateFeatureRequestStatusData]
  split_ifs <;> simp_all

/-! Chat intent classifier (class `OrchestrationChatService`, server.js). -/

/-- Result of intent parsing: an intent type and a confidence score. -/
structure Intent where
  type : String
  confidence : ℚ
  deriving DecidableEq, Repr

/-- `fallbackIntentParsing`: lowercases the message and walks a fixed chain
of substring tests, returning the first match with confidence 0.6 and
`general` with confidence 0.4 when nothing matches. -/
def fallbackIntentParsing (message : String) : Intent :=
  let m := jsToLower message
  if strIncludes m "deploy" || (strIncludes m "github" && strIncludes m "monitor") then
    ⟨"deploy", 0.6⟩
  else if strIncludes m "status" || strIncludes m "deployment" then
    ⟨"status", 0.6⟩
  else if strIncludes m "feature" || strIncludes m "request" then
    ⟨"feature_query", 0.6⟩
  else if strIncludes m "config" || strIncludes m "setting" then
    ⟨"config", 0.6⟩
  else if strIncludes m "help" || strIncludes m "how" then
    ⟨"help", 0.6⟩
  else
    ⟨"general", 0.4⟩

/-- The keyword table implicit in `fallbackIntentParsing`, in source order:
each intent is matched by a disjunction of keyword conjunctions. -/
def intentKeywordTable : List (String × List (List String)) :=
  [("deploy", [["deploy"], ["github", "monitor"]]),
   ("status", [["status"], ["deployment"]]),
   ("feature_query", [["feature"], ["request"]]),
   ("config", [["config"], ["setting"]]),
   ("help", [["help"], ["how"]])]

/-- A table row matches when one of its keyword conjunctions is contained
in the (already lowercased) message. -/
def intentRowMatches (m : String) (alternatives : List (List String)) : Bool :=
  alternatives.any fun conj => conj.all fun kw => strIncludes m kw

/-- First-match-wins lookup over the keyword table, the way the spec
describes the classifier. -/
def firstMatchIntent (m : String) : Intent :=
  match intentKeywordTable.find? (fun p => intentRowMatches m p.2) with
  | some p => ⟨p.1, 0.6⟩
  | none => ⟨"general", 0.4⟩

/-- C8: the classifier is the pure function that lowercases the message and
takes the first match over the fixed keyword table in source order, with
confidence 0.6 for a match and `general`/0.4 otherwise. -/
theorem c8_intent_first_match (message : String) :
    fallbackIntentParsing message = firstMatchIntent (jsToLower message) ∧
    ((fallbackIntentParsing message).confidence = 0.6 ∨
      ((fallbackIntentParsing message).type = "general" ∧
        (fallbackIntentParsing message).confidence = 0.4)) := by
  constructor
  · simp only [fallbackIntentParsing, firstMatchIntent, intentKeywordTable, intentRowMatches,
      List.find?, List.any_cons, List.any_nil, List.all_cons, List.all_nil]
    generalize strIncludes (jsToLower message) "deploy" = b1
    generalize strIncludes (jsToLower message) "github" = b2
    generalize strIncludes (jsToLower message) "monitor" = b3
    generalize strIncludes (jsToLower message) "status" = b4
    generalize strIncludes (jsToLower message) "deployment" = b5
    generalize strIncludes (jsToLower message) "feature" = b6
    generalize strIncludes (jsToLower message) "request" = b7
    generalize strIncludes (jsToLower message) "config" = b8
    generalize strIncludes (jsToLower message) "setting" = b9
    generalize strIncludes (jsToLower message) "help" = b10
    generalize strIncludes (jsToLower message) "how" = b11
    cases b1 <;> cases b2 <;> cases b3 <;> cases b4 <;> cases b5 <;> cases b6 <;> cases b7 <;>
      cases b8 <;> cases b9 <;> cases b10 <;> cases b11 <;> rfl
  · simp only [fallbackIntentParsing]
    split_ifs <;> simp

/-! In-memory chat sessions (routes/agent.js, POST /api/agent/chat). -/

/-- Session transcript entry (role, content, timestamp). -/
structure ChatMessage where
  role : String
  content : String
  timestamp : Nat
  deriving DecidableEq, Repr

/-- History update performed by the chat handler: push the user and
assistant messages, then cap with `history.slice(-20)` when the length
exceeds 20. -/
def appendChatHistory (history : List ChatMessage) (user assistant : ChatMessage) :
    List ChatMessage :=
  let h := history ++ [user, assistant]
  if h.length > 20 then h.drop (h.length - 20) else h

/-- C9: after every handled chat request the session history holds at most
20 messages, and when the cap fires the retained messages are exactly the
20 most recent ones. -/
theorem c9_history_capped (history : List ChatMessage) (user assistant : ChatMessage) :
    (appendChatHistory history user assistant).length ≤ 20 ∧
    (20 < (history ++ [user, assistant]).length →
      appendChatHistory history user assistant = (history ++ [user, assistant]).rtake 20) := by
  constructor
  · simp only [appendChatHistory]
    split_ifs with h
    · simp only [List.length_drop]
      omega
    · omega
  · intro hgt
    simp only [appendChatHistory, hgt, if_pos, List.rtake]

/-- Concrete chat message used to instantiate the history theorems. -/
def sampleMsg (role content : String) (timestamp : Nat) : ChatMessage :=
  { role := role, content := content, timestamp := timestamp }

/-- Witness for C9 on a session already holding 20 messages. -/
theorem c9_history_capped_witness :
    (appendChatHistory (List.replicate 20 (sampleMsg "user" "hi" 0))
        (sampleMsg "user" "ping" 1) (sampleMsg "assistant" "pong" 2)).length ≤ 20 ∧
    (20 < (List.replicate 20 (sampleMsg "user" "hi" 0) ++
        [sampleMsg "user" "ping" 1, sampleMsg "assistant" "pong" 2]).length ∧
      appendChatHistory (List.replicate 20 (sampleMsg "user" "hi" 0))
          (sampleMsg "user" "ping" 1) (sampleMsg "assistant" "pong" 2) =
        (List.replicate 20 (sampleMsg "user" "hi" 0) ++
          [sampleMsg "user" "ping" 1, sampleMsg "assistant" "pong" 2]).rtake 20) := by
  have h := c9_history_capped (List.replicate 20 (sampleMsg "user" "hi" 0))
    (sampleMsg "user" "ping" 1) (sampleMsg "assistant" "pong" 2)
  exact ⟨h.1, by decide, h.2 (by decide)⟩

/-! Developer-agent responses (class `DeveloperAgentClient`) and the
feature-request pipeline steps of the orchestration cycle. -/

/-- Row of the `feature_requests` table (fields the claims touch);
`implementation_started_at` is epoch milliseconds. -/
structure FeatureRow where
  id : String
  feature_name : String
  description : String := ""
  category : String := "feature"
  priority : String := "medium"
  status : String := "requested"
  requested_by_username : String := ""
  target_account : String := ""
  tweet_url : String := ""
  reply_text : String := ""
  github_repo : Option String := none
  implementation_started_at : Option Int := none
  deriving DecidableEq, Repr

/-- Metadata bag on a developer-agent message payload. -/
structure MetadataBag where
  filesModified : Option (List String) := none
  deriving DecidableEq, Repr

/-- Payload of a developer-agent socket message. -/
structure PayloadData where
  content : Option String := none
  metadata : Option MetadataBag := none
  deriving DecidableEq, Repr

/-- Developer-agent socket response envelope. -/
structure DevAgentResponse where
  payload : Option PayloadData := none
  deriving DecidableEq, Repr

/-- `response.payload?.content || ''`. -/
def responseContent (r : DevAgentResponse) : String :=
  (r.payload.bind PayloadData.content).getD ""

/-- Decimal digits to a number, as `parseInt` does on an all-digit string. -/
def charsToNat (digits : List Char) : Nat :=
  digits.foldl (fun acc c => acc * 10 + (c.toNat - 48)) 0

/-- Attempt of the pull-request regex
`https://github.com/[^/]+/[^/]+/pull/(\d+)` anchored at the head of the
character list; each `[^/]+` and the digit run are forced to their maximal
extent, exactly as the backtracking engine resolves this pattern. Returns
the matched text and the captured number. -/
def matchPrAt (cs : List Char) : Option (String × Nat) :=
  let pre := "https://github.com/".data
  if pre.isPrefixOf cs then
    let rest := cs.drop pre.length
    let owner := rest.takeWhile (· ≠ '/')
    if owner.isEmpty then none
    else
      match rest.drop owner.length with
      | '/' :: rest2 =>
        let repo := rest2.takeWhile (· ≠ '/')
        if repo.isEmpty then none
        else
          let rest3 := rest2.drop repo.length
          let pull := "/pull/".data
          if pull.isPrefixOf rest3 then
            let digits := (rest3.drop pull.length).takeWhile Char.isDigit
            if digits.isEmpty then none
            else some (String.mk (pre ++ owner ++ '/' :: repo ++ pull ++ digits), charsToNat digits)
          else none
      | _ => none
  else none

/-- Leftmost match of the pull-request regex, as `content.match(...)`
returns it. -/
def findPrMatch : List Char → Option (String × Nat)
  | [] => none
  | c :: cs =>
    match matchPrAt (c :: cs) with
    | some r => some r
    | none => findPrMatch cs

/-- Parsed developer-agent implementation response. -/
structure ParsedImplementation where
  success : Bool
  error : Bool
  pullRequestUrl : Option String
  pullRequestNumber : Option Nat
  filesModified : List String
  content : String
  deriving DecidableEq, Repr

/-- `parseImplementationResponse`: string-matches the success and failure
markers and extracts the first pull-request URL. -/
def parseImplementationResponse (r : DevAgentResponse) : ParsedImplementation :=
  let content := responseContent r
  let metadata := r.payload.bind PayloadData.metadata
  let prMatch := findPrMatch content.data
  { success := strIncludes content "✅" && strIncludes content "Implementation Complete"
    error := strIncludes content "❌" && strIncludes content "Implementation Failed"
    pullRequestUrl := prMatch.map Prod.fst
    pullRequestNumber := prMatch.map Prod.snd
    filesModified := (metadata.bind MetadataBag.filesModified).getD []
    content := content }

/-- Status writes performed by `processRequestedFeatureRequests` for one
requested feature, in order: `pending` is always written before the
developer agent is called; `shipped` on a success marker, `failed` on a
failure marker or a thrown error, and nothing more otherwise. The
developer-agent call is given as an `Except` (a timeout or send error is
the `error` case caught by the surrounding try block). -/
def processRequestedFeature (f : FeatureRow) (resp : Except String DevAgentResponse) :
    List (String × String) :=
  match resp with
  | Except.error _ => [(f.id, "pending"), (f.id, "failed")]
  | Except.ok r =>
    let parsed := parseImplementationResponse r
    if parsed.success then [(f.id, "pending"), (f.id, "shipped")]
    else if parsed.error then [(f.id, "pending"), (f.id, "failed")]
    else [(f.id, "pending")]

/-- Step 1 of the cycle over all requested features. -/
def processRequestedFeatureRequests (requested : List FeatureRow)
    (resps : String → Except String DevAgentResponse) : List (String × String) :=
  requested.flatMap fun f => processRequestedFeature f (resps f.id)

/-- The 10-minute soft-timeout test of `checkPendingFeatureRequests`:
`(now - new Date(started)) / (1000 * 60) > 10`; a missing start stamp makes
the comparison `NaN > 10`, which is false. -/
def pendingTooLong (now : Int) (f : FeatureRow) : Bool :=
  match f.implementation_started_at with
  | none => false
  | some t => decide ((10 : ℚ) < ((now - t : ℤ) : ℚ) / (1000 * 60))

/-- `checkPendingFeatureRequests`: returns the status writes it performs
(none — the body only logs) and the ids of the features it warns about. -/
def checkPendingFeatureRequests (now : Int) (pending : List FeatureRow) :
    List (String × String) × List String :=
  ([], (pending.filter (pendingTooLong now)).map FeatureRow.id)

/-- C5: a developer-agent response carrying neither the success marker nor
the failure marker triggers no status update beyond the initial `pending`,
so the request stays `pending`; and the pending sweep performs no status
write at all, warning exactly about requests pending for more than
10 minutes (600000 ms). -/
theorem c5_unparsed_response_stays_pending
    (r : DevAgentResponse) (f : FeatureRow) (now : Int) (pending : List FeatureRow)
    (hs : (strIncludes (responseContent r) "✅" &&
      strIncludes (responseContent r) "Implementation Complete") = false)
    (he : (strIncludes (responseContent r) "❌" &&
      strIncludes (responseContent r) "Implementation Failed") = false) :
    (parseImplementationResponse r).success = false ∧
    (parseImplementationResponse r).error = false ∧
    processRequestedFeature f (Except.ok r) = [(f.id, "pending")] ∧
    (checkPendingFeatureRequests now pending).1 = [] ∧
    (checkPendingFeatureRequests now pending).2 =
      (pending.filter fun g =>
        match g.implementation_started_at with
        | none => false
        | some t => decide (600000 < now - t)).map FeatureRow.id := by
  have hsucc : (parseImplementationResponse r).success = false := hs
  have herr : (parseImplementationResponse r).error = false := he
  refine ⟨hsucc, herr, ?_, rfl, ?_⟩
  · simp [processRequestedFeature, hsucc, herr]
  · simp only [checkPendingFeatureRequests]
    congr 1
    apply List.filter_congr
    intro g _
    simp only [pendingTooLong]
    cases g.implementation_started_at with
    | none => rfl
    | some t =>
      simp only [decide_eq_decide]
      rw [lt_div_iff₀ (by norm_num : (0 : ℚ) < 1000 * 60)]
      norm_num
      exact_mod_cast Iff.rfl

/-- Concrete feature row used to instantiate the pipeline theorems. -/
def sampleFeature (i name : String) (started : Option Int) : FeatureRow :=
  { id := i, feature_name := name, implementation_started_at := started }

/-- Witness for C5: a marker-free response on a concrete pending list. -/
theorem c5_unparsed_response_stays_pending_witness :
    ((strIncludes (responseContent ⟨some ⟨some "still working on it", none⟩⟩) "✅" &&
      strIncludes (responseContent ⟨some ⟨some "still working on it", none⟩⟩) "Implementation Complete") = false) ∧
    processRequestedFeature (sampleFeature "f1" "dark mode" none)
      (Except.ok ⟨some ⟨some "still working on it", none⟩⟩) = [("f1", "pending")] ∧
    (checkPendingFeatureRequests 900000
      [sampleFeature "f1" "dark mode" (some 0), sampleFeature "f2" "search" (some 600000)]).1 = [] ∧
    (checkPendingFeatureRequests 900000
      [sampleFeature "f1" "dark mode" (some 0), sampleFeature "f2" "search" (some 600000)]).2 = ["f1"] := by
  have h := c5_unparsed_response_stays_pending ⟨some ⟨some "still working on it", none⟩⟩
    (sampleFeature "f1" "dark mode" none) 900000
    [sampleFeature "f1" "dark mode" (some 0), sampleFeature "f2" "search" (some 600000)]
    (by decide) (by decide)
  exact ⟨by decide, h.2.2.1, h.2.2.2.1, by rw [h.2.2.2.2]; decide⟩

/-! Tick execution and failure handling (class `OrchestrationAgent` and
`updateDeploymentRun`). -/

/-- Body of the social-media agent HTTP response. -/
structure ChatResponseData where
  response : Option String := none
  message : Option String := none
  deriving DecidableEq, Repr

/-- Plain result object `sendToAgent` resolves with: a thrown HTTP error is
caught and folded into `success := false` with the error text. -/
structure SendResult where
  success : Bool
  taskId : Option String
  request : String
  response : Option ChatResponseData
  error : Option String
  deriving DecidableEq, Repr

/-- `sendToAgent`; the axios call outcome is the `Except` argument. -/
def sendToAgent (message : String) (taskId : Option String)
    (call : Except String ChatResponseData) : SendResult :=
  match call with
  | Except.ok data =>
    { success := true, taskId := taskId, request := message, response := some data, error := none }
  | Except.error e =>
    { success := false, taskId := taskId, request := message, response := none, error := some e }

/-- `updateDeploymentRun`: the source builds its `updateData` object with
`this.supabase.raw('run_count + 1')` (and `raw('error_count + 1')` on the
failure path), but supabase-js v2 exposes no `raw` method, so building the
update object throws `TypeError: this.supabase.raw is not a function`
before any database request is issued: the call always rejects and no row
is ever updated, on success and failure alike. -/
def updateDeploymentRun (_deploymentId : String) (_success : Bool) (_error : Option String)
    (_db : List DeploymentRow) (_now : Nat) : Except String (List DeploymentRow) :=
  Except.error "TypeError: this.supabase.raw is not a function"

/-- The row update `updateDeploymentRun` is written to perform, visible in
its `updateData` object: stamp the run and bump `run_count`; on success
schedule the next run 2 minutes out, on failure bump `error_count` and
store the error text. Unreachable in the source because of the TypeError
above; kept to state what the spec expects of the function. -/
def intendedDeploymentRunUpdate (row : DeploymentRow) (success : Bool) (error : Option String)
    (now : Nat) : DeploymentRow :=
  let row := { row with last_run_at := some now, run_count := row.run_count + 1,
                        updated_at := some now }
  if success then { row with next_run_at := some (now + 2 * 60 * 1000) }
  else { row with error_count := row.error_count + 1, last_error := error }

/-- `updateUrlCheckStatus`: stamps the check time. -/
def updateUrlCheckStatus (u : MonitoredUrlRow) (now : Nat) : MonitoredUrlRow :=
  { u with last_checked_at := some now, updated_at := some now }

/-- `updateDatabaseAfterExecution`: URL-analysis tasks stamp their URL row;
deployment-monitoring tasks call `updateDeploymentRun`, whose thrown
TypeError the surrounding try/catch swallows (logged only), leaving the
deployment rows unchanged. -/
def updateDatabaseAfterExecution (task : Task) (result : SendResult)
    (urls : List MonitoredUrlRow) (deployments : List DeploymentRow) (now : Nat) :
    List MonitoredUrlRow × List DeploymentRow :=
  let urls' := if task.type = "url_analysis" ∧ jsStrTruthy task.urlId then
      urls.map fun u => if some u.id = task.urlId then updateUrlCheckStatus u now else u
    else urls
  let deployments' :=
    match task.deploymentId with
    | some did =>
      if task.type = "deployment_monitoring" ∧ did ≠ "" then
        match updateDeploymentRun did result.success (jsStrOrNull result.error) deployments now with
        | Except.ok db' => db'
        | Except.error _ => deployments
      else deployments
    | none => deployments
  (urls', deployments')

/-- Everything one call of `executeOrchestrationCycle` produces. -/
structure CycleResult where
  state : OrchestrationAgentState
  featureWrites : List (String × String)
  pendingWrites : List (String × String)
  warnings : List String
  urls : List MonitoredUrlRow
  deployments : List DeploymentRow
  sendResult : Option SendResult
  deriving DecidableEq, Repr

/-- `executeOrchestrationCycle`: process requested features, sweep pending
ones, reload the queue, pick one task and execute it, then record the
outcome. The external calls of a tick (developer-agent responses per
feature, the chat-agent HTTP call) are inputs; the surrounding try/catch
makes the cycle total. -/
def executeOrchestrationCycle (st : OrchestrationAgentState)
    (requested pending : List FeatureRow)
    (resps : String → Except String DevAgentResponse)
    (urls : List MonitoredUrlRow) (deployments : List DeploymentRow)
    (call : Except String ChatResponseData) (now : Nat) : CycleResult :=
  let featureWrites := processRequestedFeatureRequests requested resps
  let pendingCheck := checkPendingFeatureRequests (now : Int) pending
  let st1 := loadTasksFromDatabase st urls deployments
  let next := getNextTask st1
  match next.1 with
  | none =>
    { state := loadTasksFromDatabase next.2 urls deployments
      featureWrites := featureWrites
      pendingWrites := pendingCheck.1
      warnings := pendingCheck.2
      urls := urls
      deployments := deployments
      sendResult := none }
  | some task =>
    let result := sendToAgent task.message (some task.id) call
    let dbs := updateDatabaseAfterExecution task result urls deployments now
    { state := next.2
      featureWrites := featureWrites
      pendingWrites := pendingCheck.1
      warnings := pendingCheck.2
      urls := dbs.1
      deployments := dbs.2
      sendResult := some result }

/-- C6 (code bug): when the chat-agent call of a deployment-monitoring
tick throws, the error is caught (`sendToAgent` reports
`success := false`) and the cycle returns with the scheduler flag
untouched, but the claimed recording never happens: `updateDeploymentRun`
throws a TypeError on the missing `supabase.raw` before issuing any
update, the catch in `updateDatabaseAfterExecution` swallows it, and the
deployment rows come out unchanged — `error_count` is not incremented and
`last_error` is not stored, although the intended update written in the
source would do exactly that. -/
theorem c6_agent_error_not_recorded (st : OrchestrationAgentState)
    (requested pending : List FeatureRow) (resps : String → Except String DevAgentResponse)
    (urls : List MonitoredUrlRow) (deployments : List DeploymentRow)
    (err : String) (now : Nat) (task : Task) (did : String)
    (htask : (getNextTask (loadTasksFromDatabase st urls deployments)).1 = some task)
    (htype : task.type = "deployment_monitoring")
    (hdid : task.deploymentId = some did) (_hdidne : did ≠ "") :
    (executeOrchestrationCycle st requested pending resps urls deployments
        (Except.error err) now).sendResult.map SendResult.success = some false ∧
    updateDeploymentRun did false (jsStrOrNull (some err)) deployments now =
      Except.error "TypeError: this.supabase.raw is not a function" ∧
    (executeOrchestrationCycle st requested pending resps urls deployments
        (Except.error err) now).deployments = deployments ∧
    (∀ r, (intendedDeploymentRunUpdate r false (some err) now).error_count = r.error_count + 1 ∧
      (intendedDeploymentRunUpdate r false (some err) now).last_error = some err) ∧
    (executeOrchestrationCycle st requested pending resps urls deployments
        (Except.error err) now).state.isRunning = st.isRunning := by
  have hurl : ¬(task.type = "url_analysis" ∧ jsStrTruthy task.urlId) := by
    rintro ⟨h, -⟩
    rw [htype] at h
    exact absurd h (by decide)
  have hcycle : executeOrchestrationCycle st requested pending resps urls deployments
      (Except.error err) now =
      { state := (getNextTask (loadTasksFromDatabase st urls deployments)).2
        featureWrites := processRequestedFeatureRequests requested resps
        pendingWrites := (checkPendingFeatureRequests (now : Int) pending).1
        warnings := (checkPendingFeatureRequests (now : Int) pending).2
        urls := urls
        deployments := deployments
        sendResult := some (sendToAgent task.message (some task.id) (Except.error err)) } := by
    simp only [executeOrchestrationCycle, htask]
    simp only [updateDatabaseAfterExecution, updateDeploymentRun, hdid, if_neg hurl, ite_self]
  refine ⟨?_, rfl, ?_, ?_, ?_⟩
  · rw [hcycle]
    rfl
  · rw [hcycle]
  · intro r
    constructor
    · simp [intendedDeploymentRunUpdate]
    · simp [intendedDeploymentRunUpdate]
  · rw [hcycle]
    simp only [getNextTask, loadTasksFromDatabase]
    split <;> rfl

/-- Concrete monitored URL row for instantiating tick theorems. -/
def sampleUrlRow : MonitoredUrlRow :=
  { id := "u1", url := "https://x.com/p/status/1", url_type := "twitter", priority := "medium" }

/-- Concrete deployment row joined to `sampleUrlRow`. -/
def sampleDeployment : DeploymentRow :=
  { id := "d1", deployment_name := "dep one", monitored_urls := some sampleUrlRow }

/-- The task `loadTasksFromDatabase` builds from `sampleDeployment`. -/
def sampleDeploymentTask : Task :=
  { id := "deployment-d1"
    message := "Monitor deployment: dep one - Check https://x.com/p/status/1"
    type := "deployment_monitoring"
    url := some "https://x.com/p/status/1"
    deploymentId := some "d1"
    githubRepo := some "undefined/undefined" }

/-- Witness for C6: a tick on the concrete deployment task whose chat-agent
call throws "socket hang up" — caught, scheduler alive, but the deployment
row is left exactly as it was. -/
theorem c6_agent_error_not_recorded_witness :
    ((getNextTask (loadTasksFromDatabase {} [] [sampleDeployment])).1 = some sampleDeploymentTask ∧
      sampleDeploymentTask.type = "deployment_monitoring" ∧
      sampleDeploymentTask.deploymentId = some "d1") ∧
    (executeOrchestrationCycle {} [] [] (fun _ => Except.error "down") [] [sampleDeployment]
        (Except.error "socket hang up") 1000).sendResult.map SendResult.success = some false ∧
    updateDeploymentRun "d1" false (jsStrOrNull (some "socket hang up")) [sampleDeployment] 1000 =
      Except.error "TypeError: this.supabase.raw is not a function" ∧
    (executeOrchestrationCycle {} [] [] (fun _ => Except.error "down") [] [sampleDeployment]
        (Except.error "socket hang up") 1000).deployments = [sampleDeployment] ∧
    ((intendedDeploymentRunUpdate sampleDeployment false (some "socket hang up") 1000).error_count =
      sampleDeployment.error_count + 1 ∧
    (intendedDeploymentRunUpdate sampleDeployment false (some "socket hang up") 1000).last_error =
      some "socket hang up") ∧
    (executeOrchestrationCycle {} [] [] (fun _ => Except.error "down") [] [sampleDeployment]
        (Except.error "socket hang up") 1000).state.isRunning =
      ({} : OrchestrationAgentState).isRunning := by
  have h := c6_agent_error_not_recorded {} [] [] (fun _ => Except.error "down") [] [sampleDeployment]
    "socket hang up" 1000 sampleDeploymentTask "d1" rfl rfl rfl (by decide)
  exact ⟨⟨rfl, rfl, rfl⟩, h.1, h.2.1, h.2.2.1, h.2.2.2.1 sampleDeployment, h.2.2.2.2⟩

/-! Feature-request tool (tools/featureRequestTool.js) and the status
vocabulary of the write sites. -/

/-- JS `value || defaultString` on an optional field. -/
def jsGetD (o : Option String) (dflt : String) : String :=
  match o with
  | some s => if s = "" then dflt else s
  | none => dflt

/-- Feature object inside the tool input. -/
structure ToolFeature where
  name : String
  description : Option String := none
  category : Option String := none
  priority : Option String := none
  deriving DecidableEq, Repr

/-- Reply object inside the tool input. -/
structure Reply where
  username : String
  text : String
  deriving DecidableEq, Repr

/-- Keyword table of `isFeatureRelated`. -/
def featureKeywords (featureName : String) : List String :=
  if featureName = "dark mode" then ["dark", "theme", "night", "mode"]
  else if featureName = "responsive" then ["responsive", "mobile", "tablet", "device"]
  else if featureName = "notification" then ["notification", "alert", "notify"]
  else if featureName = "search" then ["search", "find", "filter"]
  else if featureName = "authentication" then ["auth", "login", "signup", "account"]
  else []

/-- `isFeatureRelated`: keyword scan over the lowercased reply text. -/
def isFeatureRelated (replyText featureName : String) : Bool :=
  (featureKeywords featureName).any fun kw => strIncludes replyText kw

/-- `findRequestingUser`: first reply mentioning the feature (by substring
or keyword), else the first reply, else a fixed placeholder. -/
def findRequestingUser (feature : ToolFeature) (replies : List Reply) : Reply :=
  let featureName := jsToLower feature.name
  match replies.find? (fun reply =>
      strIncludes (jsToLower reply.text) featureName ||
        isFeatureRelated (jsToLower reply.text) featureName) with
  | some reply => reply
  | none => replies.head?.getD { username := "unknown", text := "Feature request detected" }

/-- Row shape the tool and the creation endpoints insert into
`feature_requests` (the generated `id` column is left out). -/
structure FeatureInsert where
  feature_name : String
  description : String
  category : String
  priority : String
  requested_by_username : String
  tweet_url : String
  target_account : String
  reply_text : String
  status : String
  deriving DecidableEq, Repr

/-- The `featureRequest` object built inside the tool loop. -/
def toolFeatureRow (feature : ToolFeature) (tweetUrl targetAccount : String)
    (requestingUser : Reply) : FeatureInsert :=
  { feature_name := jsTrim (jsToLower feature.name)
    description := jsGetD feature.description ("User requested " ++ feature.name)
    category := jsGetD feature.category "feature"
    priority := jsGetD feature.priority "medium"
    requested_by_username := requestingUser.username
    tweet_url := tweetUrl
    target_account := targetAccount
    reply_text := requestingUser.text
    status := "requested" }

/-- Whether a table row conflicts with the incoming row on the
`(feature_name, target_account)` unique key. -/
def sameFeatureKey (r row : FeatureInsert) : Bool :=
  r.feature_name = row.feature_name && r.target_account = row.target_account

/-- Supabase `upsert` with `onConflict: 'feature_name,target_account'` and
`ignoreDuplicates: false`, i.e. PostgREST merge-duplicates resolution
(`INSERT ... ON CONFLICT (feature_name, target_account) DO UPDATE`): a
conflicting row is overwritten in place, a fresh row is appended, and no
duplicate-key error (23505) is raised either way, so the call resolves
with a `none` error. -/
def upsertFeatureRequest (table : List FeatureInsert) (row : FeatureInsert) :
    List FeatureInsert × Option String :=
  if table.any (sameFeatureKey · row) then
    (table.map fun r => if sameFeatureKey r row then row else r, none)
  else (table ++ [row], none)

/-- One iteration of the tool's feature loop: build the row, upsert it, and
report either a saved name or an error message (the 23505 branch of the
source is kept although the upsert above never produces it). Returns the
new table, the saved names and the error messages. -/
def featureRequestToolSave (table : List FeatureInsert) (feature : ToolFeature)
    (tweetUrl targetAccount : String) (replies : List Reply) :
    List FeatureInsert × List String × List String :=
  let requestingUser := findRequestingUser feature replies
  let row := toolFeatureRow feature tweetUrl targetAccount requestingUser
  let upserted := upsertFeatureRequest table row
  match upserted.2 with
  | some code =>
    if code = "23505" then
      (upserted.1, [], ["Feature " ++ feature.name ++ " already exists for " ++ targetAccount])
    else (upserted.1, [], ["Error saving " ++ feature.name])
  | none => (upserted.1, [feature.name], [])

/-- `FeatureRequestTool._call` over its features array. -/
def featureRequestToolCall (table : List FeatureInsert) (features : List ToolFeature)
    (tweetUrl targetAccount : String) (replies : List Reply) :
    List FeatureInsert × List String × List String :=
  features.foldl (fun acc feature =>
    let r := featureRequestToolSave acc.1 feature tweetUrl targetAccount replies
    (r.1, acc.2.1 ++ r.2.1, acc.2.2 ++ r.2.2)) (table, [], [])

/-- The "dark mode" row already present for account "acme". -/
def c3ExistingRow : FeatureInsert :=
  { feature_name := "dark mode"
    description := "old dark theme request"
    category := "ui"
    priority := "high"
    requested_by_username := "alice"
    tweet_url := "https://x.com/t/status/1"
    target_account := "acme"
    reply_text := "need a dark theme"
    status := "requested" }

/-- The second "dark mode" submission for account "acme". -/
def c3SecondFeature : ToolFeature :=
  { name := "Dark Mode", description := some "please add dark mode" }

/-- Reply accompanying the second submission. -/
def c3SecondReply : Reply :=
  { username := "bob", text := "Please add dark mode!" }

/-- The row the second submission writes over the existing one. -/
def c3OverwrittenRow : FeatureInsert :=
  { feature_name := "dark mode"
    description := "please add dark mode"
    category := "feature"
    priority := "medium"
    requested_by_username := "bob"
    tweet_url := "https://x.com/t/status/9"
    target_account := "acme"
    reply_text := "Please add dark mode!"
    status := "requested" }

/-- Counterexample to C3: re-saving ("dark mode","acme") is not rejected as
a duplicate — the tool reports it saved with no error and the existing row
is silently overwritten in place. -/
theorem c3_duplicate_counterexample :
    (featureRequestToolCall [c3ExistingRow] [c3SecondFeature]
        "https://x.com/t/status/9" "acme" [c3SecondReply]).2.2 = [] ∧
    (featureRequestToolCall [c3ExistingRow] [c3SecondFeature]
        "https://x.com/t/status/9" "acme" [c3SecondReply]).2.1 = ["Dark Mode"] ∧
    (featureRequestToolCall [c3ExistingRow] [c3SecondFeature]
        "https://x.com/t/status/9" "acme" [c3SecondReply]).1 = [c3OverwrittenRow] ∧
    c3OverwrittenRow.description ≠ c3ExistingRow.description := by
  refine ⟨rfl, rfl, ?_, by decide⟩
  rfl

/-- C3 amended: a second save of an existing `(feature_name,
target_account)` pair does not create a second row; the upsert overwrites
every row with that key in place, and the tool reports the feature as saved
with no duplicate error. -/
theorem c3_amended_upsert_overwrites (table : List FeatureInsert) (feature : ToolFeature)
    (tweetUrl targetAccount : String) (replies : List Reply)
    (hdup : table.any
      (sameFeatureKey · (toolFeatureRow feature tweetUrl targetAccount
        (findRequestingUser feature replies))) = true) :
    (featureRequestToolSave table feature tweetUrl targetAccount replies).1 =
      table.map (fun r =>
        if sameFeatureKey r (toolFeatureRow feature tweetUrl targetAccount
            (findRequestingUser feature replies)) then
          toolFeatureRow feature tweetUrl targetAccount (findRequestingUser feature replies)
        else r) ∧
    (featureRequestToolSave table feature tweetUrl targetAccount replies).1.length =
      table.length ∧
    (featureRequestToolSave table feature tweetUrl targetAccount replies).2.1 = [feature.name] ∧
    (featureRequestToolSave table feature tweetUrl targetAccount replies).2.2 = [] := by
  simp [featureRequestToolSave, upsertFeatureRequest, hdup]

/-- Witness for the amended C3 on the concrete "dark mode"/"acme" table. -/
theorem c3_amended_upsert_overwrites_witness :
    ([c3ExistingRow].any
      (sameFeatureKey · (toolFeatureRow c3SecondFeature "https://x.com/t/status/9" "acme"
        (findRequestingUser c3SecondFeature [c3SecondReply]))) = true) ∧
    (featureRequestToolSave [c3ExistingRow] c3SecondFeature
        "https://x.com/t/status/9" "acme" [c3SecondReply]).1.length = 1 ∧
    (featureRequestToolSave [c3ExistingRow] c3SecondFeature
        "https://x.com/t/status/9" "acme" [c3SecondReply]).2.1 = ["Dark Mode"] ∧
    (featureRequestToolSave [c3ExistingRow] c3SecondFeature
        "https://x.com/t/status/9" "acme" [c3SecondReply]).2.2 = [] := by
  have h := c3_amended_upsert_overwrites [c3ExistingRow] c3SecondFeature
    "https://x.com/t/status/9" "acme" [c3SecondReply] (by decide)
  exact ⟨by decide, h.2.1, h.2.2.1, h.2.2.2⟩

/-! Status vocabulary across the write sites (routes/features.js,
orchestrationDatabaseService, the tool and the cycle). -/

/-- The five statuses the spec allows on `feature_requests` rows. -/
def featureStatusClaimSet : List String :=
  ["requested", "pending", "shipped", "failed", "rejected"]

/-- `isIn` validator of the PUT /api/features/:id/status route. -/
def putStatusValidator (s : String) : Bool :=
  ["requested", "developing", "pr_raised", "shipped"].contains s

/-- Update object the PUT route writes when validation passes. -/
structure RouteStatusUpdate where
  status : String
  assigned_to : Option String := none
  github_issue_url : Option String := none
  deriving DecidableEq, Repr

/-- The `updateData` of the PUT route: the validated status plus the
optional assignment fields. -/
def putFeatureStatusUpdate (s : String) (assigned gh : Option String) : RouteStatusUpdate :=
  { status := s, assigned_to := assigned, github_issue_url := gh }

/-- Input of `createFeatureRequest` and of POST /api/features. -/
structure FeatureData where
  feature_name : String
  description : String := ""
  category : Option String := none
  priority : Option String := none
  requested_by_username : Option String := none
  target_account : Option String := none
  tweet_url : Option String := none
  reply_text : Option String := none
  deriving DecidableEq, Repr

/-- Row inserted by `OrchestrationDatabaseService.createFeatureRequest`:
status is hardwired to `requested`. -/
def createFeatureRequestInsert (d : FeatureData) : FeatureInsert :=
  { feature_name := d.feature_name
    description := d.description
    category := jsGetD d.category "feature"
    priority := jsGetD d.priority "medium"
    status := "requested"
    requested_by_username := jsGetD d.requested_by_username "test-user"
    target_account := jsGetD d.target_account "test-account"
    tweet_url := jsGetD d.tweet_url "https://x.com/test/status/123"
    reply_text := jsGetD d.reply_text "Test feature request" }

/-- Row inserted by POST /api/features: status is hardwired to
`requested`. -/
def postFeaturesInsert (d : FeatureData) : FeatureInsert :=
  { feature_name := jsTrim (jsToLower d.feature_name)
    description := if d.description = "" then "Manually created feature: " ++ d.feature_name
      else d.description
    category := jsGetD d.category "feature"
    priority := jsGetD d.priority "medium"
    status := "requested"
    requested_by_username := d.requested_by_username.getD ""
    target_account := d.target_account.getD ""
    tweet_url := jsGetD d.tweet_url ""
    reply_text := jsGetD d.reply_text "Manually created" }

/-- The `feature_requests` status write sites of the server: the database
client's create helper, the tool upsert, the two feature routes, and the
two feature steps of the orchestration cycle. -/
inductive FeatureStatusWriteOp where
  | dbCreate (d : FeatureData)
  | toolUpsert (feature : ToolFeature) (tweetUrl targetAccount : String) (replies : List Reply)
  | postFeaturesRoute (d : FeatureData)
  | putStatusRoute (s : String) (assigned gh : Option String)
  | agentPipeline (f : FeatureRow) (resp : Except String DevAgentResponse)
  | pendingSweep (now : Int) (pending : List FeatureRow)

/-- The status strings an operation writes, in order. -/
def writtenStatuses : FeatureStatusWriteOp → List String
  | .dbCreate d => [(createFeatureRequestInsert d).status]
  | .toolUpsert feature tweetUrl targetAccount replies =>
    [(toolFeatureRow feature tweetUrl targetAccount (findRequestingUser feature replies)).status]
  | .postFeaturesRoute d => [(postFeaturesInsert d).status]
  | .putStatusRoute s assigned gh => [(putFeatureStatusUpdate s assigned gh).status]
  | .agentPipeline f resp => (processRequestedFeature f resp).map Prod.snd
  | .pendingSweep now pending => (checkPendingFeatureRequests now pending).1.map Prod.snd

/-- Counterexample to C4: the PUT route validator accepts `pr_raised` and
the route then writes it, although it is outside the claimed status set
(`developing` behaves the same way). -/
theorem c4_status_set_counterexample :
    putStatusValidator "pr_raised" = true ∧
    writtenStatuses (FeatureStatusWriteOp.putStatusRoute "pr_raised" none none) = ["pr_raised"] ∧
    featureStatusClaimSet.contains "pr_raised" = false := by
  refine ⟨by decide, rfl, by decide⟩

/-- C4 amended: every status a server write site stores is in the claimed
set extended with the two extra vocabulary items `developing` and
`pr_raised` that only the PUT route admits. -/
theorem c4_amended_status_set (op : FeatureStatusWriteOp)
    (hvalid : ∀ s a g, op = FeatureStatusWriteOp.putStatusRoute s a g →
      putStatusValidator s = true) :
    ∀ s ∈ writtenStatuses op, s ∈ featureStatusClaimSet ∨ s ∈ ["developing", "pr_raised"] := by
  intro s hs
  cases op with
  | dbCreate d =>
    simp only [writtenStatuses, createFeatureRequestInsert] at hs
    fin_cases hs
    decide
  | toolUpsert feature tweetUrl targetAccount replies =>
    simp only [writtenStatuses, toolFeatureRow] at hs
    fin_cases hs
    decide
  | postFeaturesRoute d =>
    simp only [writtenStatuses, postFeaturesInsert] at hs
    fin_cases hs
    decide
  | putStatusRoute s0 assigned gh =>
    have hv := hvalid s0 assigned gh rfl
    simp only [writtenStatuses, putFeatureStatusUpdate] at hs
    fin_cases hs
    simp only [putStatusValidator] at hv
    simp at hv
    rcases hv with rfl | rfl | rfl | rfl <;> decide
  | agentPipeline f resp =>
    cases resp with
    | error e =>
      simp only [writtenStatuses, processRequestedFeature, List.map_cons, List.map_nil] at hs
      fin_cases hs <;> decide
    | ok r =>
      simp only [writtenStatuses, processRequestedFeature] at hs
      split_ifs at hs <;> simp only [List.map_cons, List.map_nil] at hs <;>
        fin_cases hs <;> decide
  | pendingSweep now pending =>
    simp only [writtenStatuses, checkPendingFeatureRequests, List.map_nil] at hs
    exact absurd hs (List.not_mem_nil s)

/-- Witness for the amended C4 at the PUT route with status `developing`. -/
theorem c4_amended_status_set_witness :
    putStatusValidator "developing" = true ∧
    ("developing" ∈ featureStatusClaimSet ∨ "developing" ∈ ["developing", "pr_raised"]) := by
  refine ⟨by decide, ?_⟩
  exact c4_amended_status_set (FeatureStatusWriteOp.putStatusRoute "developing" none none)
    (by intro s a g h; cases h; decide) "developing" (by decide)

/-- Witness for C10 at the concrete queue [A] with stale index 2. -/
theorem c10_stale_index_undefined_witness :
    (([sampleTask "A"] : List Task) ≠ [] ∧ ([sampleTask "A"] : List Task).length ≤ 2) ∧
    (getNextTask ⟨false, [sampleTask "A"], 2⟩).1 = none ∧
    (getNextTask ⟨false, [sampleTask "A"], 2⟩).2.currentTaskIndex = 0 ∧
    ((getNextTask (getNextTask ⟨false, [sampleTask "A"], 2⟩).2).1).isSome = true := by
  have h := c10_stale_index_undefined [sampleTask "A"] false 2 (by simp) (by simp)
  exact ⟨⟨by simp, by simp⟩, h.2.1, by simpa using h.2.2.1, h.2.2.2⟩

end Orca
